import Mathlib

/-!
Verification development for the portfolio client script (src/script.js).
The script's view-state logic is embedded shallowly: JS strings are modelled
as Lean strings (sequences of characters; adequate for the inputs at stake,
which are BMP text), DOM/event-driven state is modelled as explicit state
machines folded over event lists, and the simulated asynchronous submission
is modelled by passing its outcome as an explicit parameter.
-/

namespace Portfolio

/-- Whitespace as recognised by the JS string trim operation and by the
regular-expression whitespace class: ASCII whitespace, NBSP, BOM and the
Unicode space separators. -/
def isJsWhitespace (c : Char) : Bool :=
  c == ' ' || c == '\t' || c == '\n' || c == '\r' ||
  c == Char.ofNat 0x0B || c == Char.ofNat 0x0C ||
  c == Char.ofNat 0xA0 || c == Char.ofNat 0x1680 ||
  (decide (0x2000 ≤ c.toNat) && decide (c.toNat ≤ 0x200A)) ||
  c == Char.ofNat 0x2028 || c == Char.ofNat 0x2029 ||
  c == Char.ofNat 0x202F || c == Char.ofNat 0x205F ||
  c == Char.ofNat 0x3000 || c == Char.ofNat 0xFEFF

/-- Model of the JS `value.trim()` call: strip whitespace from both ends. -/
def jsTrim (s : String) : String :=
  String.mk (((s.data.dropWhile isJsWhitespace).reverse.dropWhile isJsWhitespace).reverse)

/-- Outcome of one field validator, following the error taxonomy of the
script: the branch taken inside validateName / validateEmail / validateMessage
(each branch shows a distinct message and returns false, the last returns
true). -/
inductive ValidationResult where
  | valid
  | emptyField
  | tooShort
  | invalidFormat
deriving DecidableEq

/-- ContactForm.validateName: trims the input, then checks length 0
(required) and length < 2 (too short). -/
def validateName (value : String) : ValidationResult :=
  let name := jsTrim value
  if name.length = 0 then ValidationResult.emptyField
  else if name.length < 2 then ValidationResult.tooShort
  else ValidationResult.valid

/-- ContactForm.validateMessage: trims the input, then checks length 0
(required) and length < 10 (too short). -/
def validateMessage (value : String) : ValidationResult :=
  let message := jsTrim value
  if message.length = 0 then ValidationResult.emptyField
  else if message.length < 10 then ValidationResult.tooShort
  else ValidationResult.valid

/-- A character admitted by the bracket class of the email pattern:
not whitespace and not the at sign. -/
def isEmailAtomChar (c : Char) : Bool :=
  !(isJsWhitespace c) && c != '@'

/-- Final segment of the email pattern: one or more atom characters,
anchored to the end of the input. -/
def matchTail3 (cs : List Char) : Bool :=
  !cs.isEmpty && cs.all isEmailAtomChar

/-- Matcher state after at least one atom character of the domain part has
been consumed: backtracking search for a literal dot followed by the final
segment, where further atom characters (the dot included) may still belong
to the domain part. -/
def segAux : List Char → Bool
  | [] => false
  | c :: cs => (c == '.' && matchTail3 cs) || (isEmailAtomChar c && segAux cs)

/-- Domain-and-tld part of the email pattern: one or more atom characters,
a literal dot, then one or more atom characters. -/
def matchSeg2 : List Char → Bool
  | [] => false
  | c :: cs => isEmailAtomChar c && segAux cs

/-- Matcher state after at least one atom character of the local part has
been consumed: search for the at sign, consuming further atom characters. -/
def emailAux : List Char → Bool
  | [] => false
  | c :: cs => (c == '@' && matchSeg2 cs) || (isEmailAtomChar c && emailAux cs)

/-- Model of emailRegex.test for the script's anchored pattern: one or more
characters that are neither whitespace nor the at sign, an at sign, one or
more such characters, a dot, then one or more such characters. -/
def emailMatch : List Char → Bool
  | [] => false
  | c :: cs => isEmailAtomChar c && emailAux cs

/-- ContactForm.validateEmail: trims the input, then checks length 0
(required) and the email pattern. -/
def validateEmail (value : String) : ValidationResult :=
  let email := jsTrim value
  if email.length = 0 then ValidationResult.emptyField
  else if emailMatch email.data = false then ValidationResult.invalidFormat
  else ValidationResult.valid

/-- The scroll test of Navigation.setupActiveLinks for one section, given as
(id, offsetTop): the window scroll offset has reached the section top minus
the 200px lookahead. The clientHeight read by the script is unused there and
is therefore not modelled. -/
def sectionThresholdCrossed (scrollY : Int) (s : String × Int) : Bool :=
  scrollY ≥ s.2 - 200

/-- Navigation.setupActiveLinks scroll handler: start from the empty id and
scan the sections in document order, overwriting the current id whenever the
section threshold test passes. -/
def activeSectionId (scrollY : Int) (sections : List (String × Int)) : String :=
  sections.foldl
    (fun current s => if sectionThresholdCrossed scrollY s then s.1 else current) ""

/-- One event handled by the mobile-menu logic: a click on the toggle
button, a click on a nav link, a click outside the nav container, or an
Escape key press (AccessibilityEnhancements.setupKeyboardNavigation). -/
inductive NavEvent where
  | toggleClick
  | linkClick
  | outsideClick
  | escapeKey
deriving DecidableEq

/-- Menu-related DOM state: the aria-expanded attribute on the toggle (a
string, as stored by setAttribute) and whether the menu carries the active
class. -/
structure NavState where
  ariaExpanded : String
  menuActive : Bool
deriving DecidableEq

/-- JS coercion of a boolean to an attribute string, as performed by
setAttribute with a boolean argument. -/
def boolToAttr (b : Bool) : String :=
  if b then "true" else "false"

/-- Event handling of Navigation.setupMobileMenu and the Escape handler of
AccessibilityEnhancements: toggle click flips the attribute based on its
current value and toggles the menu class; link and outside clicks close the
menu and reset the attribute; Escape does the same only when the menu is
active. -/
def navStep (s : NavState) : NavEvent → NavState
  | NavEvent.toggleClick =>
    let isExpanded := s.ariaExpanded == "true"
    { ariaExpanded := boolToAttr (!isExpanded), menuActive := !s.menuActive }
  | NavEvent.linkClick => { ariaExpanded := "false", menuActive := false }
  | NavEvent.outsideClick => { ariaExpanded := "false", menuActive := false }
  | NavEvent.escapeKey =>
    if s.menuActive then { ariaExpanded := "false", menuActive := false } else s

/-- Folding the menu event handlers over an event sequence. -/
def navRun (s : NavState) (evs : List NavEvent) : NavState :=
  evs.foldl navStep s

/-- One event seen by a single form field: an input event carrying the new
field value, a blur event, or a form submit. A submit carries the
information the shared handler reacts to but that one field cannot see
alone: whether the other two fields validated, and the outcome of the
simulated submission awaited when all three are valid. -/
inductive FieldEvent where
  | input (v : String)
  | blur
  | submit (othersValid : Bool) (outcome : Except Unit Unit)

/-- Per-field DOM state: the input value and whether the matching error
element carries the visible class. -/
structure FieldState where
  value : String
  errorVisible : Bool
deriving DecidableEq

/-- Per-field event handling wired by ContactForm.init, parameterised by the
field validator (as a boolean, the return value of the validateX method):
an input event stores the value and removes the visible class from the error
element without validating; blur re-validates and shows or clears the error;
a submit runs all validators, so on this field it first acts like blur, and
then, when this field and the other two are valid, handleSubmit proceeds:
if the simulated submission resolves it calls form.reset(), clearing the
field value to its empty default without firing input events and without
touching the error display (just cleared, since the field was valid); if it
throws, no reset happens. -/
def fieldStep (vf : String → Bool) (s : FieldState) : FieldEvent → FieldState
  | FieldEvent.input v => { value := v, errorVisible := false }
  | FieldEvent.blur => { s with errorVisible := !(vf s.value) }
  | FieldEvent.submit othersValid outcome =>
    let ok := vf s.value
    if ok && othersValid then
      match outcome with
      | Except.ok _ => { value := "", errorVisible := !ok }
      | Except.error _ => { value := s.value, errorVisible := !ok }
    else { value := s.value, errorVisible := !ok }

/-- Folding the per-field handlers over an event sequence. -/
def fieldRun (vf : String → Bool) (s : FieldState) (evs : List FieldEvent) : FieldState :=
  evs.foldl (fieldStep vf) s

/-- The field has been blurred or submitted at least once in the history. -/
def touchedEver (evs : List FieldEvent) : Bool :=
  evs.any (fun e => match e with
    | FieldEvent.input _ => false
    | FieldEvent.blur => true
    | FieldEvent.submit _ _ => true)

/-- First parameter of fieldStep for the name field. -/
def nameFieldOk (v : String) : Bool :=
  validateName v == ValidationResult.valid

/-- DOM state touched by ContactForm.handleSubmit: the three field values,
the visibility of the three inline error elements, the submit button state
(disabled flag, label and loader display), the success banner, whether the
failure alert was raised, and whether preventDefault was called on the
event. -/
structure FormState where
  name : String
  email : String
  message : String
  nameErrorVisible : Bool
  emailErrorVisible : Bool
  messageErrorVisible : Bool
  submitDisabled : Bool
  buttonTextVisible : Bool
  buttonLoaderVisible : Bool
  successVisible : Bool
  alerted : Bool
  defaultPrevented : Bool
deriving DecidableEq

/-- ContactForm.handleSubmit: preventDefault, run the three validators
(each updates its error display), abort if any failed; otherwise disable
the button and swap its label for the loader, await the simulated submission
(its outcome passed here explicitly, the script resolving it after a fixed
delay), on success show the banner and reset the fields, on a thrown error
raise the alert, and in the finally block re-enable the button and restore
its label. The 5-second banner-hide timer fires outside this handler and is
not part of its state change. -/
def handleSubmit (outcome : Except Unit Unit) (s0 : FormState) : FormState :=
  let s1 := { s0 with defaultPrevented := true }
  let isNameValid := validateName s1.name == ValidationResult.valid
  let isEmailValid := validateEmail s1.email == ValidationResult.valid
  let isMessageValid := validateMessage s1.message == ValidationResult.valid
  let s2 := { s1 with nameErrorVisible := !isNameValid,
                      emailErrorVisible := !isEmailValid,
                      messageErrorVisible := !isMessageValid }
  if !isNameValid || !isEmailValid || !isMessageValid then s2
  else
    let s3 := { s2 with submitDisabled := true, buttonTextVisible := false,
                        buttonLoaderVisible := true }
    let s4 := match outcome with
      | Except.ok _ =>
        { s3 with successVisible := true, name := "", email := "", message := "" }
      | Except.error _ => { s3 with alerted := true }
    { s4 with submitDisabled := false, buttonTextVisible := true,
              buttonLoaderVisible := false }

/-- A form whose three fields satisfy their validators. -/
def validSampleForm : FormState :=
  { name := "Jo", email := "jo@x.com", message := "Hello there!",
    nameErrorVisible := false, emailErrorVisible := false,
    messageErrorVisible := false, submitDisabled := false,
    buttonTextVisible := true, buttonLoaderVisible := false,
    successVisible := false, alerted := false, defaultPrevented := false }

/-- A form whose name field fails validation. -/
def invalidSampleForm : FormState :=
  { name := "", email := "jo@x.com", message := "Hello there!",
    nameErrorVisible := false, emailErrorVisible := false,
    messageErrorVisible := false, submitDisabled := false,
    buttonTextVisible := true, buttonLoaderVisible := false,
    successVisible := false, alerted := false, defaultPrevented := false }

/-- Inline style of one element observed by
ScrollAnimations.setupIntersectionObserver. -/
structure RevealElem where
  opacity : String
  transform : String
deriving DecidableEq

/-- Styles applied to a reveal element before observation starts. -/
def revealInit : RevealElem :=
  { opacity := "0", transform := "translateY(20px)" }

/-- Reveal observer callback for one entry: on intersection set the element
visible at its resting transform; entries that are not intersecting are
ignored, so leaving the viewport changes nothing. -/
def revealStep (e : RevealElem) (isIntersecting : Bool) : RevealElem :=
  if isIntersecting then { opacity := "1", transform := "translateY(0)" } else e

/-- Folding the reveal callback over a sequence of intersection flags. -/
def revealRun (e : RevealElem) (evs : List Bool) : RevealElem :=
  evs.foldl revealStep e

/-- State of one skill bar handled by ScrollAnimations.animateSkillBars: the
data-progress attribute, the custom fill property, the animated class, and
whether the observer still observes the element (unobserve turns further
intersection events into no-ops, which the observed flag encodes). -/
structure SkillBar where
  progress : String
  progressWidth : Option String
  animated : Bool
  observed : Bool
deriving DecidableEq

/-- A skill bar before observation: no fill property, not animated,
observed. -/
def skillInit (p : String) : SkillBar :=
  { progress := p, progressWidth := none, animated := false, observed := true }

/-- Skill-bar observer callback for one entry: while observed, a first
intersection sets the fill property from the data-progress attribute, adds
the animated class and unobserves the element; anything else is a no-op. -/
def skillStep (b : SkillBar) (isIntersecting : Bool) : SkillBar :=
  if b.observed && isIntersecting then
    { b with progressWidth := some (b.progress ++ "%"), animated := true,
             observed := false }
  else b

/-- Folding the skill-bar callback over a sequence of intersection flags. -/
def skillRun (b : SkillBar) (evs : List Bool) : SkillBar :=
  evs.foldl skillStep b

/-- Number of times the progress animation is triggered along a sequence of
intersection flags. -/
def skillFires (b : SkillBar) : List Bool → Nat
  | [] => 0
  | ev :: evs => (if b.observed && ev then 1 else 0) + skillFires (skillStep b ev) evs

theorem matchTail3_iff (cs : List Char) :
    matchTail3 cs = true ↔ (cs ≠ [] ∧ cs.all isEmailAtomChar = true) := by
  cases cs <;> simp [matchTail3]

theorem segAux_iff (cs : List Char) :
    segAux cs = true ↔
      ∃ b c, cs = b ++ '.' :: c ∧ b.all isEmailAtomChar = true ∧
        c ≠ [] ∧ c.all isEmailAtomChar = true := by
  induction cs with
  | nil =>
    simp only [segAux, Bool.false_eq_true, false_iff]
    rintro ⟨b, c, heq, -, -, -⟩
    exact List.not_mem_nil '.' (heq ▸ List.mem_append_right b (List.mem_cons_self '.' c))
  | cons x xs ih =>
    simp only [segAux, Bool.or_eq_true, Bool.and_eq_true, beq_iff_eq, matchTail3_iff, ih]
    constructor
    · rintro (⟨rfl, hne, hall⟩ | ⟨hx, b, c, rfl, hb, hc, hcall⟩)
      · exact ⟨[], xs, rfl, rfl, hne, hall⟩
      · exact ⟨x :: b, c, rfl, by simp [hx, hb], hc, hcall⟩
    · rintro ⟨b, c, heq, hb, hc, hcall⟩
      cases b with
      | nil =>
        obtain ⟨rfl, rfl⟩ := List.cons.injEq .. ▸ heq
        exact Or.inl ⟨rfl, hc, hcall⟩
      | cons y b =>
        obtain ⟨rfl, rfl⟩ := List.cons.injEq .. ▸ heq
        simp only [List.all_cons, Bool.and_eq_true] at hb
        exact Or.inr ⟨hb.1, b, c, rfl, hb.2, hc, hcall⟩

theorem matchSeg2_iff (cs : List Char) :
    matchSeg2 cs = true ↔
      ∃ b c, cs = b ++ '.' :: c ∧ b ≠ [] ∧ b.all isEmailAtomChar = true ∧
        c ≠ [] ∧ c.all isEmailAtomChar = true := by
  cases cs with
  | nil =>
    simp only [matchSeg2, Bool.false_eq_true, false_iff]
    rintro ⟨b, c, heq, -, -, -, -⟩
    exact List.not_mem_nil '.' (heq ▸ List.mem_append_right b (List.mem_cons_self '.' c))
  | cons x xs =>
    simp only [matchSeg2, Bool.and_eq_true, segAux_iff]
    constructor
    · rintro ⟨hx, b, c, rfl, hb, hc, hcall⟩
      exact ⟨x :: b, c, rfl, by simp, by simp [hx, hb], hc, hcall⟩
    · rintro ⟨b, c, heq, hbne, hb, hc, hcall⟩
      cases b with
      | nil => exact absurd rfl hbne
      | cons y b =>
        obtain ⟨rfl, rfl⟩ := List.cons.injEq .. ▸ heq
        simp only [List.all_cons, Bool.and_eq_true] at hb
        exact ⟨hb.1, b, c, rfl, hb.2, hc, hcall⟩

theorem emailAux_iff (cs : List Char) :
    emailAux cs = true ↔
      ∃ a rest, cs = a ++ '@' :: rest ∧ a.all isEmailAtomChar = true ∧
        matchSeg2 rest = true := by
  induction cs with
  | nil =>
    simp only [emailAux, Bool.false_eq_true, false_iff]
    rintro ⟨a, rest, heq, -, -⟩
    exact List.not_mem_nil '@' (heq ▸ List.mem_append_right a (List.mem_cons_self '@' rest))
  | cons x xs ih =>
    simp only [emailAux, Bool.or_eq_true, Bool.and_eq_true, beq_iff_eq, ih]
    constructor
    · rintro (⟨rfl, hseg⟩ | ⟨hx, a, rest, rfl, ha, hseg⟩)
      · exact ⟨[], xs, rfl, rfl, hseg⟩
      · exact ⟨x :: a, rest, rfl, by simp [hx, ha], hseg⟩
    · rintro ⟨a, rest, heq, ha, hseg⟩
      cases a with
      | nil =>
        obtain ⟨rfl, rfl⟩ := List.cons.injEq .. ▸ heq
        exact Or.inl ⟨rfl, hseg⟩
      | cons y a =>
        obtain ⟨rfl, rfl⟩ := List.cons.injEq .. ▸ heq
        simp only [List.all_cons, Bool.and_eq_true] at ha
        exact Or.inr ⟨ha.1, a, rest, rfl, ha.2, hseg⟩

theorem emailMatch_iff (cs : List Char) :
    emailMatch cs = true ↔
      ∃ a b c, cs = a ++ '@' :: (b ++ '.' :: c) ∧
        a ≠ [] ∧ b ≠ [] ∧ c ≠ [] ∧
        a.all isEmailAtomChar = true ∧ b.all isEmailAtomChar = true ∧
        c.all isEmailAtomChar = true := by
  cases cs with
  | nil =>
    simp only [emailMatch, Bool.false_eq_true, false_iff]
    rintro ⟨a, b, c, heq, -, -, -, -, -, -⟩
    exact List.not_mem_nil '@'
      (heq ▸ List.mem_append_right a (List.mem_cons_self '@' (b ++ '.' :: c)))
  | cons x xs =>
    simp only [emailMatch, Bool.and_eq_true, emailAux_iff, matchSeg2_iff]
    constructor
    · rintro ⟨hx, a, rest, rfl, ha, b, c, rfl, hbne, hb, hcne, hcall⟩
      exact ⟨x :: a, b, c, rfl, by simp, hbne, hcne, by simp [hx, ha], hb, hcall⟩
    · rintro ⟨a, b, c, heq, hane, hbne, hcne, ha, hb, hcall⟩
      cases a with
      | nil => exact absurd rfl hane
      | cons y a =>
        obtain ⟨rfl, rfl⟩ := List.cons.injEq .. ▸ heq
        simp only [List.all_cons, Bool.and_eq_true] at ha
        exact ⟨ha.1, a, b ++ '.' :: c, rfl, ha.2, b, c, rfl, hbne, hb, hcne, hcall⟩

theorem validator_threshold_cases (n k : Nat) (hk : 0 < k) :
    ((if n = 0 then ValidationResult.emptyField
      else if n < k then ValidationResult.tooShort
      else ValidationResult.valid) = ValidationResult.emptyField ↔ n = 0) ∧
    ((if n = 0 then ValidationResult.emptyField
      else if n < k then ValidationResult.tooShort
      else ValidationResult.valid) = ValidationResult.tooShort ↔ (0 < n ∧ n < k)) ∧
    ((if n = 0 then ValidationResult.emptyField
      else if n < k then ValidationResult.tooShort
      else ValidationResult.valid) = ValidationResult.valid ↔ k ≤ n) := by
  split_ifs with h1 h2 <;> refine ⟨?_, ?_, ?_⟩ <;> simp_all <;> omega

/-- Claim C6: for every input string, validateName fails with emptyField
when the trimmed length is 0, fails with tooShort when the (trimmed) length
is positive but less than 2, and is valid otherwise; in particular the empty
string yields emptyField, a single letter yields tooShort, and a two-letter
name is valid. -/
theorem C6_validateName_cases (value : String) :
    (validateName value = ValidationResult.emptyField ↔ (jsTrim value).length = 0) ∧
    (validateName value = ValidationResult.tooShort ↔
      (0 < (jsTrim value).length ∧ (jsTrim value).length < 2)) ∧
    (validateName value = ValidationResult.valid ↔ 2 ≤ (jsTrim value).length) ∧
    validateName "" = ValidationResult.emptyField ∧
    validateName "A" = ValidationResult.tooShort ∧
    validateName "Al" = ValidationResult.valid := by
  have h := validator_threshold_cases (jsTrim value).length 2 (by decide)
  exact ⟨h.1, h.2.1, h.2.2, by decide, by decide, by decide⟩

/-- Claim C2, counterexample to the claim as stated: the string of ten
spaces has length at least 10 but validateMessage does not accept it (the
code trims first, so it yields emptyField, not valid). -/
theorem C2_counterexample :
    10 ≤ String.length "          " ∧
      validateMessage "          " ≠ ValidationResult.valid := by
  decide

/-- Claim C2 (amended): validateMessage trims its input first; it fails with
emptyField when the trimmed string is empty, fails with tooShort when the
trimmed length is positive but less than 10, and is valid otherwise; in
particular a trimmed length of at least 10 is valid and a trimmed length of
9 yields tooShort. -/
theorem C2_validateMessage_cases (value : String) :
    (validateMessage value = ValidationResult.emptyField ↔ (jsTrim value).length = 0) ∧
    (validateMessage value = ValidationResult.tooShort ↔
      (0 < (jsTrim value).length ∧ (jsTrim value).length < 10)) ∧
    (validateMessage value = ValidationResult.valid ↔ 10 ≤ (jsTrim value).length) ∧
    validateMessage "123456789" = ValidationResult.tooShort ∧
    validateMessage "1234567890" = ValidationResult.valid := by
  have h := validator_threshold_cases (jsTrim value).length 10 (by decide)
  exact ⟨h.1, h.2.1, h.2.2, by decide, by decide⟩

/-- Claim C7, counterexample to the claim as stated: the one-space string is
not empty and does not match the email pattern, yet validateEmail does not
report invalidFormat on it (the code trims first, so it reports
emptyField). -/
theorem C7_counterexample :
    (" " : String) ≠ "" ∧ emailMatch (String.data " ") = false ∧
      validateEmail " " ≠ ValidationResult.invalidFormat := by
  decide

/-- Claim C7 (amended): validateEmail trims its input first; it fails with
emptyField when the trimmed string is empty, fails with invalidFormat when
the trimmed string does not match the email pattern, and is valid otherwise;
the pattern holds exactly when the characters split as a nonempty sequence
of non-whitespace non-at characters, an at sign, such a nonempty sequence, a
dot, and such a nonempty sequence; in particular a\@b.c is valid, abc is
invalidFormat and the empty string is emptyField. -/
theorem C7_validateEmail_cases (value : String) :
    (validateEmail value = ValidationResult.emptyField ↔ (jsTrim value).length = 0) ∧
    (validateEmail value = ValidationResult.invalidFormat ↔
      ((jsTrim value).length ≠ 0 ∧ emailMatch (jsTrim value).data = false)) ∧
    (validateEmail value = ValidationResult.valid ↔
      ((jsTrim value).length ≠ 0 ∧ emailMatch (jsTrim value).data = true)) ∧
    (∀ cs : List Char, emailMatch cs = true ↔
      ∃ a b c, cs = a ++ '@' :: (b ++ '.' :: c) ∧
        a ≠ [] ∧ b ≠ [] ∧ c ≠ [] ∧
        a.all isEmailAtomChar = true ∧ b.all isEmailAtomChar = true ∧
        c.all isEmailAtomChar = true) ∧
    validateEmail "a@b.c" = ValidationResult.valid ∧
    validateEmail "abc" = ValidationResult.invalidFormat ∧
    validateEmail "" = ValidationResult.emptyField := by
  refine ⟨?_, ?_, ?_, emailMatch_iff, by decide, by decide, by decide⟩ <;>
    · unfold validateEmail
      by_cases h1 : (jsTrim value).length = 0
      · simp [h1]
      · by_cases h2 : emailMatch (jsTrim value).data = false
        · simp only [h1, if_false, h2, if_true]
          simp_all
        · simp only [h1, if_false, h2, if_true]
          simp_all

theorem foldl_overwrite_eq_getLast {α : Type} (p : α → Bool) (f : α → String)
    (l : List α) (a : String) :
    l.foldl (fun current s => if p s then f s else current) a
      = (((l.filter p).getLast?).map f).getD a := by
  induction l using List.reverseRecOn with
  | nil => rfl
  | append_singleton xs x ih =>
    rw [List.foldl_append, List.foldl_cons, List.foldl_nil, List.filter_append]
    by_cases h : p x = true
    · simp [h, List.filter_cons, List.getLast?_concat]
    · simp only [Bool.not_eq_true] at h
      simp [h, List.filter_cons, ih]

/-- Claim C1: the active section id computed on a scroll event equals the id
of the last section in document order whose top offset minus 200 is less
than or equal to the scroll offset (the threshold test), and is the empty
string when no threshold has been crossed; ties are resolved by scan order
with the last section winning, since the id is the last element of the
order-preserving filter. -/
theorem C1_activeSectionId_last_crossed (scrollY : Int) (sections : List (String × Int)) :
    (∀ s : String × Int, sectionThresholdCrossed scrollY s = true ↔ s.2 - 200 ≤ scrollY) ∧
    activeSectionId scrollY sections
      = (((sections.filter (sectionThresholdCrossed scrollY)).getLast?).map Prod.fst).getD "" := by
  constructor
  · intro s
    simp [sectionThresholdCrossed, ge_iff_le]
  · exact foldl_overwrite_eq_getLast (sectionThresholdCrossed scrollY) Prod.fst sections ""

theorem navStep_preserves_mirror (s : NavState) (e : NavEvent)
    (h : (s.ariaExpanded = "true") ↔ s.menuActive = true) :
    ((navStep s e).ariaExpanded = "true") ↔ (navStep s e).menuActive = true := by
  cases e with
  | toggleClick =>
    by_cases hm : s.menuActive = true
    · have ha : s.ariaExpanded = "true" := h.mpr hm
      simp [navStep, boolToAttr, ha, hm]
    · have ha : ¬ s.ariaExpanded = "true" := fun hx => hm (h.mp hx)
      simp only [Bool.not_eq_true] at hm
      simp [navStep, boolToAttr, hm, beq_false_of_ne ha]
  | linkClick => simp [navStep]
  | outsideClick => simp [navStep]
  | escapeKey =>
    by_cases hm : s.menuActive = true
    · simp [navStep, hm]
    · simp only [Bool.not_eq_true] at hm
      simpa [navStep, hm] using h

/-- Claim C9: for every sequence of toggle-button clicks, nav-link clicks,
outside clicks, and Escape key presses, starting from any state where the
aria-expanded attribute mirrors the menu state, after handling the events
the toggle attribute is the string true exactly when the menu is open. -/
theorem C9_ariaExpanded_mirrors_menu (s : NavState) (evs : List NavEvent)
    (h : (s.ariaExpanded = "true") ↔ s.menuActive = true) :
    ((navRun s evs).ariaExpanded = "true") ↔ (navRun s evs).menuActive = true := by
  induction evs generalizing s with
  | nil => exact h
  | cons e evs ih => exact ih (navStep s e) (navStep_preserves_mirror s e h)

/-- Witness for claim C9: a closed run from the closed, collapsed initial
state through a toggle click and an Escape press. -/
theorem C9_witness :
    ((navRun ⟨"false", false⟩ [NavEvent.toggleClick, NavEvent.escapeKey]).ariaExpanded = "true")
      ↔ (navRun ⟨"false", false⟩ [NavEvent.toggleClick, NavEvent.escapeKey]).menuActive = true :=
  C9_ariaExpanded_mirrors_menu ⟨"false", false⟩ [NavEvent.toggleClick, NavEvent.escapeKey]
    (by simp)

theorem fieldRun_append (vf : String → Bool) (s : FieldState)
    (evs : List FieldEvent) (e : FieldEvent) :
    fieldRun vf s (evs ++ [e]) = fieldStep vf (fieldRun vf s evs) e := by
  simp [fieldRun, List.foldl_append]

theorem fieldStep_submit_errorVisible (vf : String → Bool) (s : FieldState)
    (ov : Bool) (oc : Except Unit Unit) :
    (fieldStep vf s (FieldEvent.submit ov oc)).errorVisible = !(vf s.value) := by
  by_cases h : (vf s.value && ov) = true <;> cases oc <;> simp [fieldStep, h]

/-- Claim C3, counterexample to the claim as stated: blur the empty name
field (error shown), then type a still-invalid one-letter value; the field
is invalid and has been blurred at least once, yet the error display is
hidden, because typing clears the display without re-validating. -/
theorem C3_counterexample :
    nameFieldOk
        (fieldRun nameFieldOk ⟨"", false⟩ [FieldEvent.blur, FieldEvent.input "B"]).value
      = false ∧
    touchedEver [FieldEvent.blur, FieldEvent.input "B"] = true ∧
    (fieldRun nameFieldOk ⟨"", false⟩ [FieldEvent.blur, FieldEvent.input "B"]).errorVisible
      = false := by
  decide

/-- Claim C3 (amended): for every field validator and every sequence of
blur, input, and submit events starting from a pristine field, the error
display after the last event is determined by that event: hidden after an
input event (typing clears the display without re-validating), and after a
blur or submit shown exactly when the field's then-current value is
invalid; hence the display is visible exactly when the most recent blur or
submit since the last input event found the then-current value invalid. A
successful submission resets the field value via form.reset() without
firing an input event and leaves the display hidden, exhibited on a
concrete run of the name field. -/
theorem C3_errorVisible_iff (vf : String → Bool) (v0 : String)
    (evs : List FieldEvent) (e : FieldEvent) :
    (fieldRun vf ⟨v0, false⟩ []).errorVisible = false ∧
    ((fieldRun vf ⟨v0, false⟩ (evs ++ [e])).errorVisible =
      match e with
      | FieldEvent.input _ => false
      | FieldEvent.blur => !(vf (fieldRun vf ⟨v0, false⟩ evs).value)
      | FieldEvent.submit _ _ => !(vf (fieldRun vf ⟨v0, false⟩ evs).value)) ∧
    (∀ s v, (fieldStep vf s (FieldEvent.input v)).errorVisible = false) ∧
    (∀ s, (fieldStep vf s (FieldEvent.submit true (Except.ok ()))).value
      = (if vf s.value then "" else s.value)) ∧
    fieldRun nameFieldOk ⟨"Jo", false⟩ [FieldEvent.submit true (Except.ok ())]
      = ⟨"", false⟩ := by
  refine ⟨rfl, ?_, fun s v => rfl, ?_, by decide⟩
  · rw [fieldRun_append]
    cases e with
    | input v => rfl
    | blur => rfl
    | submit ov oc => exact fieldStep_submit_errorVisible vf _ ov oc
  · intro s
    by_cases h : vf s.value = true
    · simp [fieldStep, h]
    · simp only [Bool.not_eq_true] at h
      simp [fieldStep, h]

/-- Claim C4: whenever the three validators accept the field values, the
submit handler leaves the submit button enabled, its label visible and the
loading indicator hidden, whether the simulated submission resolves or
throws: the cleanup in the finally block is unconditional. -/
theorem C4_cleanup_unconditional (outcome : Except Unit Unit) (s : FormState)
    (hn : validateName s.name = ValidationResult.valid)
    (he : validateEmail s.email = ValidationResult.valid)
    (hm : validateMessage s.message = ValidationResult.valid) :
    (handleSubmit outcome s).submitDisabled = false ∧
    (handleSubmit outcome s).buttonTextVisible = true ∧
    (handleSubmit outcome s).buttonLoaderVisible = false := by
  cases outcome <;> simp [handleSubmit, hn, he, hm]

/-- Witness for claim C4: the sample valid form, with the simulated
submission throwing. -/
theorem C4_witness :
    (handleSubmit (Except.error ()) validSampleForm).submitDisabled = false ∧
    (handleSubmit (Except.error ()) validSampleForm).buttonTextVisible = true ∧
    (handleSubmit (Except.error ()) validSampleForm).buttonLoaderVisible = false :=
  C4_cleanup_unconditional (Except.error ()) validSampleForm
    (by decide) (by decide) (by decide)

/-- Claim C5: on a submit event with at least one invalid field, the handler
runs all three validators (each error display ends up reflecting its
validator), aborts without touching the field values, the button state, the
loader, the success banner or the alert flag, and suppresses the default
action of the event. -/
theorem C5_invalid_submit_aborts (outcome : Except Unit Unit) (s : FormState)
    (h : ¬ (validateName s.name = ValidationResult.valid ∧
            validateEmail s.email = ValidationResult.valid ∧
            validateMessage s.message = ValidationResult.valid)) :
    (handleSubmit outcome s).name = s.name ∧
    (handleSubmit outcome s).email = s.email ∧
    (handleSubmit outcome s).message = s.message ∧
    (handleSubmit outcome s).submitDisabled = s.submitDisabled ∧
    (handleSubmit outcome s).buttonTextVisible = s.buttonTextVisible ∧
    (handleSubmit outcome s).buttonLoaderVisible = s.buttonLoaderVisible ∧
    (handleSubmit outcome s).successVisible = s.successVisible ∧
    (handleSubmit outcome s).alerted = s.alerted ∧
    (handleSubmit outcome s).defaultPrevented = true ∧
    (handleSubmit outcome s).nameErrorVisible
      = !(validateName s.name == ValidationResult.valid) ∧
    (handleSubmit outcome s).emailErrorVisible
      = !(validateEmail s.email == ValidationResult.valid) ∧
    (handleSubmit outcome s).messageErrorVisible
      = !(validateMessage s.message == ValidationResult.valid) := by
  have hcond : (!(validateName s.name == ValidationResult.valid) ||
      !(validateEmail s.email == ValidationResult.valid) ||
      !(validateMessage s.message == ValidationResult.valid)) = true := by
    by_cases h1 : validateName s.name = ValidationResult.valid
    · by_cases h2 : validateEmail s.email = ValidationResult.valid
      · by_cases h3 : validateMessage s.message = ValidationResult.valid
        · exact absurd ⟨h1, h2, h3⟩ h
        · simp [h3]
      · simp [h2]
    · simp [h1]
  simp [handleSubmit, hcond]

/-- Witness for claim C5: the sample form with an empty name field. -/
theorem C5_witness :
    (handleSubmit (Except.ok ()) invalidSampleForm).name = invalidSampleForm.name ∧
    (handleSubmit (Except.ok ()) invalidSampleForm).email = invalidSampleForm.email ∧
    (handleSubmit (Except.ok ()) invalidSampleForm).message = invalidSampleForm.message ∧
    (handleSubmit (Except.ok ()) invalidSampleForm).submitDisabled
      = invalidSampleForm.submitDisabled ∧
    (handleSubmit (Except.ok ()) invalidSampleForm).buttonTextVisible
      = invalidSampleForm.buttonTextVisible ∧
    (handleSubmit (Except.ok ()) invalidSampleForm).buttonLoaderVisible
      = invalidSampleForm.buttonLoaderVisible ∧
    (handleSubmit (Except.ok ()) invalidSampleForm).successVisible
      = invalidSampleForm.successVisible ∧
    (handleSubmit (Except.ok ()) invalidSampleForm).alerted = invalidSampleForm.alerted ∧
    (handleSubmit (Except.ok ()) invalidSampleForm).defaultPrevented = true ∧
    (handleSubmit (Except.ok ()) invalidSampleForm).nameErrorVisible
      = !(validateName invalidSampleForm.name == ValidationResult.valid) ∧
    (handleSubmit (Except.ok ()) invalidSampleForm).emailErrorVisible
      = !(validateEmail invalidSampleForm.email == ValidationResult.valid) ∧
    (handleSubmit (Except.ok ()) invalidSampleForm).messageErrorVisible
      = !(validateMessage invalidSampleForm.message == ValidationResult.valid) :=
  C5_invalid_submit_aborts (Except.ok ()) invalidSampleForm (by decide)

/-- Claim C10: the submit handler calls preventDefault before validating, so
for every outcome and every starting state, valid or invalid, the default
action of the submit event is suppressed. -/
theorem C10_preventDefault_unconditional (outcome : Except Unit Unit) (s : FormState) :
    (handleSubmit outcome s).defaultPrevented = true := by
  cases outcome <;> simp only [handleSubmit] <;> split <;> rfl

theorem revealRun_keeps_revealed (evs : List Bool) (e : RevealElem)
    (h : e = { opacity := "1", transform := "translateY(0)" }) :
    revealRun e evs = { opacity := "1", transform := "translateY(0)" } := by
  induction evs generalizing e with
  | nil => exact h
  | cons ev evs ih =>
    have hstep : revealStep e ev = { opacity := "1", transform := "translateY(0)" } := by
      cases ev <;> simp [revealStep, h]
    exact ih (revealStep e ev) hstep

theorem skillRun_keeps_animated (evs : List Bool) (b : SkillBar)
    (h : b.animated = true) : (skillRun b evs).animated = true := by
  induction evs generalizing b with
  | nil => exact h
  | cons ev evs ih =>
    have hstep : (skillStep b ev).animated = true := by
      by_cases hg : (b.observed && ev) = true <;> simp [skillStep, hg, h]
    exact ih (skillStep b ev) hstep

theorem skillFires_not_observed (evs : List Bool) (b : SkillBar)
    (h : b.observed = false) : skillFires b evs = 0 := by
  induction evs generalizing b with
  | nil => rfl
  | cons ev evs ih =>
    have hstep : skillStep b ev = b := by simp [skillStep, h]
    simp [skillFires, h, hstep, ih b h]

theorem skillRun_not_observed (evs : List Bool) (b : SkillBar)
    (h : b.observed = false) : skillRun b evs = b := by
  induction evs generalizing b with
  | nil => rfl
  | cons ev evs ih =>
    have hstep : skillStep b ev = b := by simp [skillStep, h]
    calc skillRun b (ev :: evs) = skillRun (skillStep b ev) evs := rfl
    _ = skillRun b evs := by rw [hstep]
    _ = b := ih b h

theorem skillFires_le_one (evs : List Bool) (b : SkillBar) : skillFires b evs ≤ 1 := by
  induction evs generalizing b with
  | nil => exact Nat.zero_le 1
  | cons ev evs ih =>
    by_cases hg : (b.observed && ev) = true
    · have hobs : (skillStep b ev).observed = false := by simp [skillStep, hg]
      simp [skillFires, hg, skillFires_not_observed evs _ hobs]
    · simp [skillFires, hg, ih (skillStep b ev)]

theorem skillRun_fires_once (evs : List Bool) (b : SkillBar)
    (hobs : b.observed = true) (hany : evs.any (fun x => x) = true) :
    skillFires b evs = 1 ∧ (skillRun b evs).animated = true ∧
      (skillRun b evs).observed = false := by
  induction evs generalizing b with
  | nil => cases hany
  | cons ev evs ih =>
    cases ev with
    | true =>
      have hg : (b.observed && true) = true := by rw [hobs]; rfl
      have hobs2 : (skillStep b true).observed = false := by simp [skillStep, hg]
      have hanim2 : (skillStep b true).animated = true := by simp [skillStep, hg]
      have hrun : skillRun (skillStep b true) evs = skillStep b true :=
        skillRun_not_observed evs _ hobs2
      refine ⟨?_, ?_, ?_⟩
      · show (if b.observed && true then 1 else 0) + skillFires (skillStep b true) evs = 1
        rw [hg, skillFires_not_observed evs _ hobs2]
        rfl
      · show (skillRun (skillStep b true) evs).animated = true
        rw [hrun]
        exact hanim2
      · show (skillRun (skillStep b true) evs).observed = false
        rw [hrun]
        exact hobs2
    | false =>
      have hstep : skillStep b false = b := by simp [skillStep]
      have hany2 : evs.any (fun x => x) = true := by simpa using hany
      have hmain := ih b hobs hany2
      refine ⟨?_, ?_, ?_⟩
      · show (if b.observed && false then 1 else 0) + skillFires (skillStep b false) evs = 1
        rw [hstep]
        simpa using hmain.1
      · show (skillRun (skillStep b false) evs).animated = true
        rw [hstep]
        exact hmain.2.1
      · show (skillRun (skillStep b false) evs).observed = false
        rw [hstep]
        exact hmain.2.2

/-- Claim C8: for every animated element and every sequence of intersection
events, a revealed element stays revealed and an animated skill bar stays
animated (one-way transitions); along any event sequence the progress
animation fires at most once, and from a freshly observed bar it fires
exactly once as soon as some event intersects, leaving the bar animated and
unobserved, so later intersections cannot retrigger it. -/
theorem C8_oneway_and_fire_once (e : RevealElem) (b : SkillBar) (p : String)
    (evs : List Bool) :
    (e = { opacity := "1", transform := "translateY(0)" } →
      revealRun e evs = { opacity := "1", transform := "translateY(0)" }) ∧
    (b.animated = true → (skillRun b evs).animated = true) ∧
    skillFires b evs ≤ 1 ∧
    (evs.any (fun x => x) = true →
      skillFires (skillInit p) evs = 1 ∧ (skillRun (skillInit p) evs).animated = true ∧
        (skillRun (skillInit p) evs).observed = false) :=
  ⟨revealRun_keeps_revealed evs e,
   skillRun_keeps_animated evs b,
   skillFires_le_one evs b,
   fun hany => skillRun_fires_once evs (skillInit p) rfl hany⟩

/-- Witness for claim C8: a revealed element and an animated, unobserved
bar are stable across a concrete event sequence containing an intersection,
and a fresh bar fires exactly once on it. -/
theorem C8_witness :
    revealRun { opacity := "1", transform := "translateY(0)" } [true, false]
      = { opacity := "1", transform := "translateY(0)" } ∧
    (skillRun { progress := "80", progressWidth := some "80%",
                animated := true, observed := false } [true, false]).animated = true ∧
    skillFires { progress := "80", progressWidth := some "80%",
                 animated := true, observed := false } [true, false] ≤ 1 ∧
    (skillFires (skillInit "80") [true, false] = 1 ∧
      (skillRun (skillInit "80") [true, false]).animated = true ∧
      (skillRun (skillInit "80") [true, false]).observed = false) := by
  have h := C8_oneway_and_fire_once { opacity := "1", transform := "translateY(0)" }
    { progress := "80", progressWidth := some "80%", animated := true, observed := false }
    "80" [true, false]
  exact ⟨h.1 rfl, h.2.1 rfl, h.2.2.1, h.2.2.2 (by decide)⟩

end Portfolio
